import Mathlib

/-!
Shallow embedding of the Pooja AI voice-session client
(`frontend/src/App.jsx`).

The React component keeps its session in a handful of state hooks and
refs; here they are collected into a single `AppState` record.  Each
event handler of the component (`startRecording`, `stopRecording`,
`handleMicClick`, `generateResponses`, `selectResponse`, the
recognition callbacks and the synthesis paths) becomes a pure function
on `AppState`.  Asynchronous external outcomes — the generation fetch,
the TTS fetch, audio-element events and utterance events — are passed
in explicitly as parameters, one constructor per outcome the code can
observe.

String operations of the JavaScript source (`join(' ')`, `trim()`,
`toLowerCase()`, `includes`, `startsWith`, `split('-')[0]`) are
re-implemented over `List Char` so that every definition evaluates
inside the kernel.
-/

namespace PoojaAI

/-! ### String helpers (JavaScript semantics, kernel-computable) -/

/-- Whitespace test used by `trim`. -/
def isWs (c : Char) : Bool := c.isWhitespace

/-- JavaScript `String.prototype.trim`: strip leading and trailing whitespace. -/
def jsTrim (s : String) : String :=
  String.mk (((s.data.dropWhile isWs).reverse.dropWhile isWs).reverse)

/-- JavaScript `Array.prototype.join(sep)`. -/
def joinWith (sep : String) : List String → String
  | [] => ""
  | [x] => x
  | x :: y :: rest => x ++ sep ++ joinWith sep (y :: rest)

/-- Concatenation of a list of strings with no separator (the `+=`
accumulation of interim segments). -/
def strConcat : List String → String
  | [] => ""
  | x :: rest => x ++ strConcat rest

/-- JavaScript `String.prototype.toLowerCase` (ASCII-adequate for the
voice-name heuristic). -/
def jsToLower (s : String) : String :=
  String.mk (s.data.map Char.toLower)

/-- Is `p` a leading segment of `l`? (used for `startsWith` and `includes`). -/
def charsLead : List Char → List Char → Bool
  | _, [] => true
  | [], _ :: _ => false
  | c :: cs, d :: ds => c = d && charsLead cs ds

/-- JavaScript `String.prototype.startsWith`. -/
def jsStartsWith (s pre : String) : Bool :=
  charsLead s.data pre.data

/-- Does `l` contain `p` as a contiguous run? -/
def charsContain (l p : List Char) : Bool :=
  match l with
  | [] => charsLead [] p
  | _ :: rest => charsLead l p || charsContain rest p

/-- JavaScript `String.prototype.includes`. -/
def jsIncludes (s sub : String) : Bool :=
  charsContain s.data sub.data

/-- JavaScript `lang.split('-')[0]`: the primary language subtag. -/
def primarySubtag (s : String) : String :=
  String.mk (s.data.takeWhile (fun c => c ≠ '-'))

/-! ### Data model -/

/-- The `status` hook: a user-facing message plus a display colour. -/
structure Status where
  message : String
  color : String
deriving DecidableEq, Repr

/-- One generated reply option: `{tone, response}`. -/
structure ResponseOption where
  tone : String
  response : String
deriving DecidableEq, Repr

/-- One conversation-log entry: `{role, text}`. -/
structure ConversationEntry where
  role : String
  text : String
deriving DecidableEq, Repr

/-- The configured speech-recognition engine instance held in
`recognitionRef` (only its language matters to the model). -/
structure Recognition where
  lang : String
deriving DecidableEq, Repr

/-- A local synthesis voice as enumerated by `getVoices()`. -/
structure Voice where
  lang : String
  name : String
deriving DecidableEq, Repr

/-- A configured `SpeechSynthesisUtterance`. -/
structure SynthUtterance where
  text : String
  rate : ℚ
  pitch : ℚ
  lang : String
  voice : Option Voice
deriving DecidableEq, Repr

/-- One entry of a recognition `onresult` event list: the transcript of
the top alternative plus the `isFinal` flag. -/
structure SpeechResult where
  text : String
  isFinal : Bool
deriving DecidableEq, Repr

/-- The component state: React hooks plus the two refs.
`responseOptions = none` models the untyped JavaScript value being
`undefined` (as happens when `setResponseOptions(data.options)` stores
an absent field); `some l` models a genuine array. -/
structure AppState where
  isRecording : Bool
  isSpeaking : Bool
  isProcessing : Bool
  transcript : String
  responseOptions : Option (List ResponseOption)
  conversationHistory : List ConversationEntry
  selectedLanguage : String
  status : Status
  recognition : Option Recognition
  finalSegs : List String
deriving DecidableEq, Repr

/-- The spec's derived session state, read off the component's flags:
Speaking, Recording and Processing from the three booleans,
AwaitingSelection when reply options are pending, Idle otherwise. -/
inductive SessionState where
  | Idle
  | Recording
  | Processing
  | AwaitingSelection
  | Speaking
deriving DecidableEq, Repr

def sessionState (s : AppState) : SessionState :=
  if s.isSpeaking then .Speaking
  else if s.isRecording then .Recording
  else if s.isProcessing then .Processing
  else if (s.responseOptions.getD []).isEmpty then .Idle
  else .AwaitingSelection

/-! ### Recognition lifecycle -/

/-- The language-name lookup object in `recognition.onstart`. -/
def langName (code : String) : Option String :=
  if code = "en-US" then some "English"
  else if code = "hi-IN" then some "Hindi"
  else if code = "ta-IN" then some "Tamil"
  else if code = "raj-IN" then some "Rajasthani"
  else none

/-- `recognitionLang`: `raj-IN` has no native recognition support and is
recognised as Hindi. -/
def recognitionLangFor (selectedLanguage : String) : String :=
  if selectedLanguage = "raj-IN" then "hi-IN" else selectedLanguage

/-- `initializeRecognition`: returns `false` (and a warning status) when
the browser offers no SpeechRecognition, otherwise installs a fresh
engine instance configured for the current language and returns `true`. -/
def initRecognition (supported : Bool) (s : AppState) : Bool × AppState :=
  if supported then
    (true, { s with recognition := some { lang := recognitionLangFor s.selectedLanguage } })
  else
    (false, { s with status := { message := "⚠️ Use Chrome/Edge/Safari", color := "red" } })

/-- `recognition.onstart`: recording begins; the displayed transcript and
the finalized-segment buffer are reset and a listening status is shown. -/
def onStart (s : AppState) : AppState :=
  { s with
    isRecording := true
    transcript := ""
    finalSegs := []
    status :=
      { message := "🎤 Listening in " ++ (langName s.selectedLanguage).getD "undefined" ++ "..."
        color := "green" } }

/-- `recognition.onresult`: finalized segments are pushed onto the
buffer in arrival order, interim segments are concatenated, and the
displayed transcript becomes the joined finalized text followed by the
interim text, trimmed. -/
def onResult (results : List SpeechResult) (s : AppState) : AppState :=
  let interimTranscript := strConcat ((results.filter (fun r => !r.isFinal)).map (fun r => r.text))
  let newSegs := s.finalSegs ++ (results.filter (fun r => r.isFinal)).map (fun r => r.text)
  let currentTranscript := jsTrim (joinWith " " newSegs)
  { s with
    finalSegs := newSegs
    transcript := jsTrim (currentTranscript ++ " " ++ interimTranscript) }

/-- `recognition.onerror`: `aborted` and `no-speech` are ignored; every
other error code is shown as a red status. -/
def onError (error : String) (s : AppState) : AppState :=
  if error ≠ "aborted" ∧ error ≠ "no-speech" then
    { s with status := { message := "Error: " ++ error, color := "red" } }
  else s

/-- `finalTranscriptRef.current.join(' ').trim()`: the finalized
transcript handed downstream. -/
def finalTranscript (segs : List String) : String :=
  jsTrim (joinWith " " segs)

/-! ### Generation request -/

/-- What the `/api/generate` fetch can come back with: a parsed JSON
payload (`success`, an `options` field that may be absent, `fallback`),
or a thrown transport/parse error. -/
inductive GenOutcome where
  | payload (success : Bool) (options : Option (List ResponseOption)) (fallback : Bool)
  | netThrow
deriving DecidableEq, Repr

/-- `addToConversation(role, text)`: append-only log update. -/
def addToConversation (role text : String) (s : AppState) : AppState :=
  { s with conversationHistory := s.conversationHistory ++ [{ role := role, text := text }] }

/-- The state at the suspension point of `generateResponses`, right
after `setIsProcessing(true)` and `setResponseOptions([])` and before
the fetch resolves. -/
def generateResponsesPending (s : AppState) : AppState :=
  { s with isProcessing := true, responseOptions := some [] }

/-- `generateResponses(patronText)` run to completion against a given
fetch outcome.  On `success` the options field is stored as-is (the
code performs no shape validation), a timing status is shown and the
patron's utterance is logged; on `success = false` or a thrown fetch an
error status is shown; `finally` always clears the processing flag. -/
def generateResponses (outcome : GenOutcome) (elapsedMs : Nat) (patronText : String)
    (s : AppState) : AppState :=
  let s1 := generateResponsesPending s
  match outcome with
  | .netThrow =>
      { s1 with status := { message := "Connection error", color := "red" }, isProcessing := false }
  | .payload success options fallback =>
      if success then
        let s2 :=
          { s1 with
            responseOptions := options
            status :=
              if fallback then
                { message := "✓ Fallback (" ++ toString elapsedMs ++ "ms)", color := "orange" }
              else
                { message := "✓ AI (" ++ toString elapsedMs ++ "ms)", color := "green" } }
        let s3 := addToConversation "Patron" patronText s2
        { s3 with isProcessing := false }
      else
        { s1 with
          status := { message := "Error generating responses", color := "red" }
          isProcessing := false }

/-! ### Start / stop / mic click -/

/-- `startRecording`: bails out only when no engine exists and none can
be created; otherwise reinitializes for the current language, clears the
transcript and pending options, and starts the engine (a throwing
`start()` only changes the status message). -/
def startRecording (supported startThrows : Bool) (s : AppState) : AppState :=
  if s.recognition = none ∧ (initRecognition supported s).1 = false then
    (initRecognition supported s).2
  else
    let s0 := if s.recognition = none then (initRecognition supported s).2 else s
    let s1 := (initRecognition supported s0).2
    let s2 := { s1 with transcript := "", responseOptions := some [] }
    if startThrows then { s2 with status := { message := "Click again", color := "orange" } }
    else s2

/-- `stopRecording` including the settled timeout body: a no-op unless an
engine exists and recording is active; otherwise recording ends and,
after the settle delay, a non-empty finalized transcript is sent to
generation while an empty one yields the no-speech status. -/
def stopRecording (outcome : GenOutcome) (elapsedMs : Nat) (s : AppState) : AppState :=
  if s.recognition = none ∨ s.isRecording = false then s
  else
    let s1 := { s with isRecording := false }
    let finalText := finalTranscript s1.finalSegs
    if finalText ≠ "" then generateResponses outcome elapsedMs finalText s1
    else { s1 with status := { message := "No speech detected", color := "orange" } }

/-- `handleMicClick`: while speaking, only a busy status; otherwise
toggles between stopping and starting a recording. -/
def handleMicClick (supported startThrows : Bool) (outcome : GenOutcome) (elapsedMs : Nat)
    (s : AppState) : AppState :=
  if s.isSpeaking then { s with status := { message := "Wait...", color := "orange" } }
  else if s.isRecording then stopRecording outcome elapsedMs s
  else startRecording supported startThrows s

/-! ### Playback -/

/-- The event that ends a playback: the element's `ended`/`end` event or
its `error` event. -/
inductive PlayEvent where
  | ended
  | errored
deriving DecidableEq, Repr

/-- What the `/api/tts` fetch can come back with. -/
inductive TtsOutcome where
  | payload (success : Bool) (audio : Option String)
  | netThrow
deriving DecidableEq, Repr

/-- The locale mapping of `fallbackSpeak`. -/
def fallbackLang (selectedLanguage : String) : String :=
  if selectedLanguage = "hi-IN" ∨ selectedLanguage = "raj-IN" then "hi-IN"
  else if selectedLanguage = "ta-IN" then "ta-IN"
  else "en-IN"

/-- The `voices.find(...)` heuristic: first voice whose language tag
starts with the utterance locale's primary subtag and whose lowercased
name contains "female" or "woman". -/
def findFemaleVoice (voices : List Voice) (utteranceLang : String) : Option Voice :=
  voices.find? (fun v =>
    jsStartsWith v.lang (primarySubtag utteranceLang) &&
      (jsIncludes (jsToLower v.name) "female" || jsIncludes (jsToLower v.name) "woman"))

/-- The utterance `fallbackSpeak` configures: rate 1.0, pitch 1.8, the
mapped locale, and the female-voice heuristic's pick if any. -/
def fallbackUtterance (voices : List Voice) (selectedLanguage text : String) : SynthUtterance :=
  let lang := fallbackLang selectedLanguage
  { text := text
    rate := 1
    pitch := 9 / 5
    lang := lang
    voice := findFemaleVoice voices lang }

/-- The promise of `fallbackSpeak`: `utterance.onend` and
`utterance.onerror` are both wired to `resolve`, so either event yields
`ok`. -/
def fallbackSpeak (synthEv : PlayEvent) : Except String Unit :=
  match synthEv with
  | .ended => .ok ()
  | .errored => .ok ()

/-- The promise of `speakText`: with `success` and an audio payload the
decoded audio is played and `audio.onended` / `audio.onerror` both
resolve; any other payload, and a thrown fetch, fall back to local
synthesis. -/
def speakText (tts : TtsOutcome) (audioEv synthEv : PlayEvent) : Except String Unit :=
  match tts with
  | .payload true (some _audio) =>
      match audioEv with
      | .ended => .ok ()
      | .errored => .ok ()
  | .payload _ _ => fallbackSpeak synthEv
  | .netThrow => fallbackSpeak synthEv

/-- `selectResponse(option)`: enter Speaking and clear the options, await
playback, then log the persona's turn under "Pooja (tone)", leave
Speaking and show the ready status.  A rejected playback promise would
abort at the `await` (the `.error` branch), leaving the session in
Speaking. -/
def selectResponse (tts : TtsOutcome) (audioEv synthEv : PlayEvent) (option : ResponseOption)
    (s : AppState) : AppState :=
  let s1 := { s with isSpeaking := true, responseOptions := some [] }
  match speakText tts audioEv synthEv with
  | .error _ => s1
  | .ok _ =>
      let s2 := addToConversation ("Pooja (" ++ option.tone ++ ")") option.response s1
      { s2 with
        isSpeaking := false
        status := { message := "✓ Ready", color := "blue" }
        transcript := "" }

/-- `clearHistory`. -/
def clearHistory (s : AppState) : AppState :=
  { s with conversationHistory := [], status := { message := "✓ Cleared", color := "green" } }

/-! ### Derived event folds -/

/-- The finalized segments contributed by a sequence of `onresult`
events, in arrival order. -/
def finalsOf (eventList : List (List SpeechResult)) : List String :=
  (eventList.map (fun results => (results.filter (fun r => r.isFinal)).map (fun r => r.text))).flatten

/-- Fold a sequence of `onresult` events over a state. -/
def runResults (eventList : List (List SpeechResult)) (s : AppState) : AppState :=
  eventList.foldl (fun st results => onResult results st) s

/-! ### Concrete states for witnesses -/

/-- The component's initial state (after a successful engine
initialization). -/
def idleState : AppState :=
  { isRecording := false
    isSpeaking := false
    isProcessing := false
    transcript := ""
    responseOptions := some []
    conversationHistory := []
    selectedLanguage := "en-US"
    status := { message := "Ready", color := "gray" }
    recognition := some { lang := "en-US" }
    finalSegs := [] }

/-- A state in the middle of playback. -/
def speakingState : AppState :=
  { idleState with isSpeaking := true }

/-- A state in the middle of a recording, with nothing finalized yet. -/
def recordingState : AppState :=
  { idleState with isRecording := true }

/-- A state carrying leftovers of a previous cycle. -/
def dirtyState : AppState :=
  { idleState with
    transcript := "old words"
    responseOptions := some [{ tone := "polite", response := "ok" }]
    finalSegs := ["old", "words"] }

/-- Two recognition result events: a finalized segment plus an interim
fragment, then another finalized segment. -/
def demoEvents : List (List SpeechResult) :=
  [[{ text := "More tea", isFinal := true }, { text := "plea", isFinal := false }],
   [{ text := "please", isFinal := true }]]

/-! ### Helper lemmas -/

/-- The playback promise of `speakText` resolves for every transport
outcome and every playback event: each `onended` / `onerror` /
`onend` handler is wired to `resolve`. -/
theorem speakText_resolves (tts : TtsOutcome) (audioEv synthEv : PlayEvent) :
    speakText tts audioEv synthEv = Except.ok () := by
  rcases tts with ⟨success, audio⟩ | _
  · cases success <;> rcases audio with _ | a <;> cases audioEv <;> cases synthEv <;> rfl
  · cases synthEv <;> rfl

/-- A state whose processing flag is off is never classified as
Processing. -/
theorem sessionState_ne_processing (s : AppState) (h : s.isProcessing = false) :
    sessionState s ≠ SessionState.Processing := by
  obtain ⟨rec, spk, proc, t, opts, hist, lang, st, rcg, segs⟩ := s
  cases proc with
  | true => simp at h
  | false =>
      cases rec <;> cases spk <;> simp [sessionState] <;> split <;> simp

/-- Folding `onresult` events appends their finalized segments in
arrival order. -/
theorem runResults_finalSegs (eventList : List (List SpeechResult)) (s : AppState) :
    (runResults eventList s).finalSegs = s.finalSegs ++ finalsOf eventList := by
  induction eventList generalizing s with
  | nil => simp [runResults, finalsOf]
  | cons r rest ih =>
      show (runResults rest (onResult r s)).finalSegs = _
      rw [ih]
      simp [onResult, finalsOf]

/-- `onresult` events touch only the transcript fields. -/
theorem runResults_preserves (eventList : List (List SpeechResult)) (s : AppState) :
    (runResults eventList s).isRecording = s.isRecording ∧
    (runResults eventList s).recognition = s.recognition := by
  induction eventList generalizing s with
  | nil => exact ⟨rfl, rfl⟩
  | cons r rest ih =>
      show (runResults rest (onResult r s)).isRecording = _ ∧
        (runResults rest (onResult r s)).recognition = _
      rw [(ih (onResult r s)).1, (ih (onResult r s)).2]
      exact ⟨rfl, rfl⟩

/-! ### Claims -/

/-- Claim C1, counterexample: `generateResponses` performs no shape
validation of the options list.  On a payload with `success = true` and
an absent options field the code still appends the patron's entry to
the conversation log, contradicting "no entry is appended to the
conversation log" for a malformed/absent options list. -/
theorem generateResponses_unvalidated_options_cex :
    ¬ ((generateResponses (GenOutcome.payload true none false) 5 "More tea please"
          idleState).conversationHistory = idleState.conversationHistory) := by
  decide

/-- Claim C1 (amended): for every generation request, if the transport
throws or the backend reports `success = false`, the request is treated
as a failure: no entry is appended to the conversation log, no response
options are exposed for selection, and the session returns to Idle with
an error (red) status. -/
theorem generateResponses_failure_is_clean (outcome : GenOutcome) (elapsedMs : Nat)
    (patronText : String) (s : AppState)
    (hfail : outcome = GenOutcome.netThrow ∨
      ∃ options fallback, outcome = GenOutcome.payload false options fallback)
    (hrec : s.isRecording = false) (hspk : s.isSpeaking = false) :
    (generateResponses outcome elapsedMs patronText s).conversationHistory
        = s.conversationHistory ∧
    (generateResponses outcome elapsedMs patronText s).responseOptions = some [] ∧
    (generateResponses outcome elapsedMs patronText s).status.color = "red" ∧
    (generateResponses outcome elapsedMs patronText s).isProcessing = false ∧
    sessionState (generateResponses outcome elapsedMs patronText s) = SessionState.Idle := by
  rcases hfail with rfl | ⟨options, fallback, rfl⟩ <;>
    simp [generateResponses, generateResponsesPending, sessionState, hrec, hspk]

/-- Claim C1 amended theorem, witnessed at a thrown transport on the
initial state. -/
theorem generateResponses_failure_is_clean_witness :
    (generateResponses GenOutcome.netThrow 0 "tea" idleState).conversationHistory
        = idleState.conversationHistory ∧
    (generateResponses GenOutcome.netThrow 0 "tea" idleState).responseOptions = some [] ∧
    (generateResponses GenOutcome.netThrow 0 "tea" idleState).status.color = "red" ∧
    (generateResponses GenOutcome.netThrow 0 "tea" idleState).isProcessing = false ∧
    sessionState (generateResponses GenOutcome.netThrow 0 "tea" idleState) = SessionState.Idle :=
  generateResponses_failure_is_clean GenOutcome.netThrow 0 "tea" idleState (Or.inl rfl) rfl rfl

/-- Claim C2: for every chosen option and every playback outcome — a
successful network synthesis, a failed or audio-less synthesis routed
through the local fallback, a normally ending playback or an erroring
one — the playback promise resolves (never rejects), so after selecting
any option the session leaves Speaking and shows the ready status. -/
theorem selectResponse_always_ready (tts : TtsOutcome) (audioEv synthEv : PlayEvent)
    (option : ResponseOption) (s : AppState) :
    speakText tts audioEv synthEv = Except.ok () ∧
    (selectResponse tts audioEv synthEv option s).isSpeaking = false ∧
    (selectResponse tts audioEv synthEv option s).status
      = { message := "✓ Ready", color := "blue" } := by
  have hok : speakText tts audioEv synthEv = Except.ok () :=
    speakText_resolves tts audioEv synthEv
  refine ⟨hok, ?_, ?_⟩ <;> simp [selectResponse, hok, addToConversation]

/-- Claim C3: every selection of a response option appends exactly one
entry for the persona's turn — role "Pooja (tone)", text the option's
response — immediately after playback resolves, for every playback
outcome. -/
theorem selectResponse_logs_persona (tts : TtsOutcome) (audioEv synthEv : PlayEvent)
    (option : ResponseOption) (s : AppState) :
    (selectResponse tts audioEv synthEv option s).conversationHistory
      = s.conversationHistory
        ++ [{ role := "Pooja (" ++ option.tone ++ ")", text := option.response }] := by
  simp [selectResponse, speakText_resolves, addToConversation]

/-- Claim C4: stopping a recording whose finalized transcript is empty
after the settle delay leaves every field but the recording flag and the
status untouched — so no generation request is issued and the
conversation log is unchanged — shows the no-speech status, and (in any
state reachable while recording) classifies as Idle. -/
theorem stopRecording_no_speech (outcome : GenOutcome) (elapsedMs : Nat) (s : AppState)
    (hrec : s.recognition ≠ none) (hrecording : s.isRecording = true)
    (hempty : finalTranscript s.finalSegs = "") :
    stopRecording outcome elapsedMs s
      = { s with
          isRecording := false
          status := { message := "No speech detected", color := "orange" } } ∧
    (s.isSpeaking = false → s.isProcessing = false → s.responseOptions = some [] →
      sessionState (stopRecording outcome elapsedMs s) = SessionState.Idle) := by
  have heq : stopRecording outcome elapsedMs s
      = { s with
          isRecording := false
          status := { message := "No speech detected", color := "orange" } } := by
    simp only [finalTranscript] at hempty
    simp [stopRecording, finalTranscript, hrec, hrecording, hempty]
  refine ⟨heq, fun hspk hproc hopts => ?_⟩
  rw [heq]
  simp [sessionState, hspk, hproc, hopts]

/-- Claim C4, witnessed on a recording with zero finalized segments. -/
theorem stopRecording_no_speech_witness :
    stopRecording GenOutcome.netThrow 0 recordingState
      = { recordingState with
          isRecording := false
          status := { message := "No speech detected", color := "orange" } } ∧
    sessionState (stopRecording GenOutcome.netThrow 0 recordingState) = SessionState.Idle := by
  have h := stopRecording_no_speech GenOutcome.netThrow 0 recordingState
    (by decide) rfl (by decide)
  exact ⟨h.1, h.2 rfl rfl rfl⟩

/-- Claim C5: whenever a recording actually starts (an engine exists or
can be created), the working transcript and the pending response options
are reset to empty, whatever they held before; once the engine's start
event fires the finalized-segment buffer is empty as well. -/
theorem startRecording_resets (supported startThrows : Bool) (s : AppState)
    (h : ¬ (s.recognition = none ∧ supported = false)) :
    (startRecording supported startThrows s).transcript = "" ∧
    (startRecording supported startThrows s).responseOptions = some [] ∧
    (onStart (startRecording supported startThrows s)).transcript = "" ∧
    (onStart (startRecording supported startThrows s)).finalSegs = [] ∧
    (onStart (startRecording supported startThrows s)).responseOptions = some [] := by
  cases supported with
  | false =>
      rcases hr : s.recognition with _ | r
      · exact absurd ⟨hr, rfl⟩ h
      · cases startThrows <;>
          simp [startRecording, initRecognition, onStart, hr]
  | true =>
      rcases hr : s.recognition with _ | r <;> cases startThrows <;>
        simp [startRecording, initRecognition, onStart, hr]

/-- Claim C5, witnessed on a state carrying a stale transcript, stale
pending options and stale finalized segments. -/
theorem startRecording_resets_witness :
    (startRecording true false dirtyState).transcript = "" ∧
    (startRecording true false dirtyState).responseOptions = some [] ∧
    (onStart (startRecording true false dirtyState)).transcript = "" ∧
    (onStart (startRecording true false dirtyState)).finalSegs = [] ∧
    (onStart (startRecording true false dirtyState)).responseOptions = some [] :=
  startRecording_resets true false dirtyState (by decide)

/-- Claim C6: a mic click while the session is Speaking changes nothing
but the status message, which reports busy; in particular the session
state and the recognition instance are untouched. -/
theorem micClick_while_speaking_busy (supported startThrows : Bool) (outcome : GenOutcome)
    (elapsedMs : Nat) (s : AppState) (h : s.isSpeaking = true) :
    handleMicClick supported startThrows outcome elapsedMs s
      = { s with status := { message := "Wait...", color := "orange" } } := by
  simp [handleMicClick, h]

/-- Claim C6, witnessed on the speaking state. -/
theorem micClick_while_speaking_busy_witness :
    handleMicClick true false GenOutcome.netThrow 0 speakingState
      = { speakingState with status := { message := "Wait...", color := "orange" } } :=
  micClick_while_speaking_busy true false GenOutcome.netThrow 0 speakingState rfl

/-- Claim C7: for any sequence of `onresult` events finalizing segments
S₁..Sₙ during a recording, the finalized transcript equals S₁..Sₙ
joined by single spaces with surrounding whitespace trimmed, and when
non-empty it is exactly what `stopRecording` hands to the generation
request. -/
theorem finalTranscript_joins_segments (eventList : List (List SpeechResult)) (s : AppState)
    (h0 : s.finalSegs = []) (hrec : s.recognition ≠ none) (hrecording : s.isRecording = true)
    (outcome : GenOutcome) (elapsedMs : Nat)
    (hne : finalTranscript (finalsOf eventList) ≠ "") :
    (runResults eventList s).finalSegs = finalsOf eventList ∧
    finalTranscript (runResults eventList s).finalSegs
      = jsTrim (joinWith " " (finalsOf eventList)) ∧
    stopRecording outcome elapsedMs (runResults eventList s)
      = generateResponses outcome elapsedMs (jsTrim (joinWith " " (finalsOf eventList)))
          { runResults eventList s with isRecording := false } := by
  have hsegs : (runResults eventList s).finalSegs = finalsOf eventList := by
    rw [runResults_finalSegs, h0, List.nil_append]
  have h1 : (runResults eventList s).recognition ≠ none := by
    rw [(runResults_preserves eventList s).2]; exact hrec
  have h2 : (runResults eventList s).isRecording = true := by
    rw [(runResults_preserves eventList s).1]; exact hrecording
  have h3 : finalTranscript (runResults eventList s).finalSegs
      = jsTrim (joinWith " " (finalsOf eventList)) := by
    rw [hsegs]; rfl
  refine ⟨hsegs, h3, ?_⟩
  simp only [stopRecording]
  rw [if_neg (by simp [h1, h2])]
  have h4 : finalTranscript ({ runResults eventList s with isRecording := false }).finalSegs
      = jsTrim (joinWith " " (finalsOf eventList)) := h3
  rw [if_pos (by rw [h4]; exact (by rw [finalTranscript] at hne; exact hne))]
  rw [h4]

/-- Claim C7, witnessed on two result events finalizing "More tea" and
"please" around an interim fragment. -/
theorem finalTranscript_joins_segments_witness :
    (runResults demoEvents recordingState).finalSegs = finalsOf demoEvents ∧
    finalTranscript (runResults demoEvents recordingState).finalSegs
      = jsTrim (joinWith " " (finalsOf demoEvents)) ∧
    stopRecording GenOutcome.netThrow 0 (runResults demoEvents recordingState)
      = generateResponses GenOutcome.netThrow 0 (jsTrim (joinWith " " (finalsOf demoEvents)))
          { runResults demoEvents recordingState with isRecording := false } :=
  finalTranscript_joins_segments demoEvents recordingState rfl (by decide) rfl
    GenOutcome.netThrow 0 (by decide)

/-- Claim C8: the local-synthesis fallback configures every utterance
with rate 1 (normal pace), pitch 9/5 (strictly above neutral), and the
locale mapping Hindi/Rajasthani → hi-IN, Tamil → ta-IN, anything else →
en-IN. -/
theorem fallbackUtterance_config (voices : List Voice) (selectedLanguage text : String) :
    (fallbackUtterance voices selectedLanguage text).rate = 1 ∧
    1 < (fallbackUtterance voices selectedLanguage text).pitch ∧
    ((selectedLanguage = "hi-IN" ∨ selectedLanguage = "raj-IN") →
      (fallbackUtterance voices selectedLanguage text).lang = "hi-IN") ∧
    (selectedLanguage = "ta-IN" →
      (fallbackUtterance voices selectedLanguage text).lang = "ta-IN") ∧
    (selectedLanguage ≠ "hi-IN" → selectedLanguage ≠ "raj-IN" → selectedLanguage ≠ "ta-IN" →
      (fallbackUtterance voices selectedLanguage text).lang = "en-IN") := by
  refine ⟨rfl, by norm_num [fallbackUtterance], ?_, ?_, ?_⟩
  · rintro (rfl | rfl) <;> rfl
  · rintro rfl; rfl
  · intro h1 h2 h3
    simp [fallbackUtterance, fallbackLang, h1, h2, h3]

/-- Claim C8, witnessed on the Rajasthani code: the fallback utterance
speaks at rate 1, pitch above neutral, in the Hindi locale. -/
theorem fallbackUtterance_config_witness :
    (fallbackUtterance [] "raj-IN" "chai").rate = 1 ∧
    1 < (fallbackUtterance [] "raj-IN" "chai").pitch ∧
    (fallbackUtterance [] "raj-IN" "chai").lang = "hi-IN" := by
  have h := fallbackUtterance_config [] "raj-IN" "chai"
  exact ⟨h.1, h.2.1, h.2.2.1 (Or.inr rfl)⟩

/-- Claim C9: recognition errors "aborted" and "no-speech" are fully
suppressed (the state, status included, is unchanged); any other error
code changes only the status, surfacing the code in a red message. -/
theorem onError_classification (error : String) (s : AppState) :
    ((error = "aborted" ∨ error = "no-speech") → onError error s = s) ∧
    (error ≠ "aborted" → error ≠ "no-speech" →
      onError error s
        = { s with status := { message := "Error: " ++ error, color := "red" } }) := by
  constructor
  · rintro (rfl | rfl) <;> simp [onError]
  · intro h1 h2
    simp [onError, h1, h2]

/-- Claim C9, witnessed on a suppressed code and a surfaced one. -/
theorem onError_classification_witness :
    onError "aborted" idleState = idleState ∧
    onError "network" idleState
      = { idleState with
          status := { message := "Error: " ++ "network", color := "red" } } :=
  ⟨(onError_classification "aborted" idleState).1 (Or.inl rfl),
   (onError_classification "network" idleState).2 (by decide) (by decide)⟩

/-- Claim C10: the processing flag is on at the suspension point of
every generation request and off once the request completes — success,
reported failure or thrown transport alike — so the resolved session is
never still classified as Processing. -/
theorem generateResponses_clears_processing (outcome : GenOutcome) (elapsedMs : Nat)
    (patronText : String) (s : AppState) :
    (generateResponsesPending s).isProcessing = true ∧
    (generateResponses outcome elapsedMs patronText s).isProcessing = false ∧
    sessionState (generateResponses outcome elapsedMs patronText s)
      ≠ SessionState.Processing := by
  have hp : (generateResponses outcome elapsedMs patronText s).isProcessing = false := by
    rcases outcome with ⟨success, options, fallback⟩ | _
    · cases success <;>
        simp [generateResponses, generateResponsesPending, addToConversation]
    · rfl
  exact ⟨rfl, hp, sessionState_ne_processing _ hp⟩

end PoojaAI
